import Mathlib

/-!
Verification development for the image-parse expense-extraction service.

The embedding covers:
* the zod output schema `extractedDataSchema` (bill_no / amount / purpose /
  raw_text) as an explicit validator over a JSON value model;
* the `POST /api/extract` route handler: the missing-image guard, data-URI
  normalization of the image payload, the no-result branch, and the
  catch-block error classification (API_KEY / quota / rate limit / generic);
* the client-side `ImageOCR` session state machine (`processFile`,
  `performAIExtraction`) as an event-step semantics, to analyse stale
  in-flight completions.

JavaScript-specific behaviour is modelled explicitly: string falsiness is
emptiness, `??`-style optional chaining on `error.message` is an
`Option String`, and `a || b` on strings is `jsOrDefault`.
-/

/-- Characters of `pat` appear at the start of the second list
(JS `String.prototype.startsWith` over char lists). -/
def charListStarts : List Char → List Char → Bool
  | [], _ => true
  | _ :: _, [] => false
  | p :: ps, c :: cs => (p == c) && charListStarts ps cs

/-- `pat` occurs as a contiguous run somewhere in the second list. -/
def charListIncludes (pat : List Char) : List Char → Bool
  | [] => pat.isEmpty
  | c :: cs => charListStarts pat (c :: cs) || charListIncludes pat cs

/-- JS `s.includes(pat)`: substring containment, with the JS convention that
the empty pattern is always contained. -/
def jsIncludes (s pat : String) : Bool :=
  pat.toList.isEmpty || charListIncludes pat.toList s.toList

/-- JS `s.startsWith(pat)`. -/
def jsStarts (s pat : String) : Bool :=
  charListStarts pat.toList s.toList

/-- JS optional chaining `m?.includes(pat)` where `m` may be `undefined`:
an absent message matches nothing. -/
def optIncludes : Option String → String → Bool
  | none, _ => false
  | some s, pat => jsIncludes s pat

/-- JS `m || d` for an optional string `m`: the default is used when `m` is
absent or empty (falsy). -/
def jsOrDefault : Option String → String → String
  | none, d => d
  | some s, d => if s == "" then d else s

/-- JS falsiness of the `image` field of the parsed request body: the guard
`if (!image)` fires when the field is absent or the empty string. -/
def imageFalsy : Option String → Bool
  | none => true
  | some s => s == ""

/-- JSON values, the shape space of the model response candidate and of
response bodies. -/
inductive Json where
  | null : Json
  | bool (b : Bool) : Json
  | num (n : Int) : Json
  | str (s : String) : Json
  | arr (elems : List Json) : Json
  | obj (fields : List (String × Json)) : Json

/-- First binding for `key` in a JSON object field list. -/
def lookupField : List (String × Json) → String → Option Json
  | [], _ => none
  | (k, v) :: rest, key => if k == key then some v else lookupField rest key

/-- The value of field `key` when the candidate is an object and the field is
present with a string value; `none` otherwise (missing field, non-string
field, or non-object candidate). -/
def Json.getStr : Json → String → Option String
  | .obj fields, key =>
      match lookupField fields key with
      | some (.str s) => some s
      | _ => none
  | _, _ => none

/-- The seven `purpose` enum literals of `extractedDataSchema`
(page.tsx line 187). -/
inductive Purpose where
  | conveyance | train | bus | food | hotel | projectExpense | other
deriving DecidableEq

/-- The string literal of each enum member, exactly as in the zod schema. -/
def purposeString : Purpose → String
  | .conveyance => "Conveyance"
  | .train => "Train"
  | .bus => "Bus"
  | .food => "Food"
  | .hotel => "Hotel"
  | .projectExpense => "Project Expense"
  | .other => "Other"

/-- zod `z.enum([...])` membership test for the seven literals. -/
def parsePurpose (s : String) : Option Purpose :=
  if s == "Conveyance" then some .conveyance
  else if s == "Train" then some .train
  else if s == "Bus" then some .bus
  else if s == "Food" then some .food
  else if s == "Hotel" then some .hotel
  else if s == "Project Expense" then some .projectExpense
  else if s == "Other" then some .other
  else none

/-- A Boolean form of membership in the seven enumerated literals, written
from the list of literals named by the claim. -/
def isPurposeLiteral (s : String) : Bool :=
  s == "Conveyance" || s == "Train" || s == "Bus" || s == "Food" ||
  s == "Hotel" || s == "Project Expense" || s == "Other"

/-- The validated extraction output (the zod schema `extractedDataSchema`
from page.tsx lines 184-189, and the client `StructuredData` interface). -/
structure ExtractedData where
  bill_no : String
  amount : String
  purpose : Purpose
  raw_text : String
deriving DecidableEq

/-- Schema-validation failure: the single category a non-conforming model
output maps to (`MalformedOutput` in the error taxonomy). The argument names
the offending field. -/
inductive ValidationError where
  | malformedOutput (field : String) : ValidationError
deriving DecidableEq

/-- The explicit form of the zod object validation performed on the model
output: every field must be present with a string value, and `purpose` must
be one of the seven enum literals. No coercion and no defaulting: the
accepted strings are the candidate strings themselves. -/
def validate (candidate : Json) : Except ValidationError ExtractedData :=
  match candidate.getStr "bill_no" with
  | none => .error (.malformedOutput "bill_no")
  | some b =>
    match candidate.getStr "amount" with
    | none => .error (.malformedOutput "amount")
    | some a =>
      match candidate.getStr "purpose" with
      | none => .error (.malformedOutput "purpose")
      | some p =>
        match parsePurpose p with
        | none => .error (.malformedOutput "purpose")
        | some pu =>
          match candidate.getStr "raw_text" with
          | none => .error (.malformedOutput "raw_text")
          | some r => .ok { bill_no := b, amount := a, purpose := pu, raw_text := r }

/-- Whether the validator accepts the candidate. -/
def isAccepted (candidate : Json) : Bool :=
  match validate candidate with
  | .ok _ => true
  | .error _ => false

/-- Acceptance condition written from the words of the claim: the four
fields are present and string-typed and `purpose` is one of the seven
literals. Stated independently of `validate` so the two can be compared. -/
def specAccepts (candidate : Json) : Bool :=
  (candidate.getStr "bill_no").isSome &&
  (candidate.getStr "amount").isSome &&
  (match candidate.getStr "purpose" with
   | some p => isPurposeLiteral p
   | none => false) &&
  (candidate.getStr "raw_text").isSome

/-- Self-describing data URI, written from the words of the spec glossary:
a text encoding that embeds its MIME type, of the form
`data:<mime>;base64,<payload>` — it starts with the `data:` scheme and
contains the comma separating the header from the payload. -/
def isSelfDescribingDataURI (s : String) : Bool :=
  jsStarts s "data:" && jsIncludes s ","

/-- The `imageData` computation of the route handler (page.tsx lines
247-249): pass the image through unchanged when it contains a comma,
otherwise synthesize a data URI from the declared MIME type (default
`image/jpeg`, also used when the declared type is the empty string). -/
def normalizeImage (image : String) (mimeType : Option String) : String :=
  if jsIncludes image "," then image
  else "data:" ++ jsOrDefault mimeType "image/jpeg" ++ ";base64," ++ image

/-- The parsed JSON request body of `POST /api/extract`: the `image` and
`mimeType` fields, each possibly absent. -/
structure ExtractRequest where
  image : Option String
  mimeType : Option String

/-- Outcome of the `generateObject` provider call on the transported
payload: it either completes (with the schema-validated object, or with no
object at all), or it throws an error carrying an optional message string. -/
inductive ProviderOutcome where
  | ok (result : Option Json) : ProviderOutcome
  | err (message : Option String) : ProviderOutcome

/-- The JSON response of the route handler: the HTTP status plus the body
fields that the handler ever sets. A field that a given branch does not
mention is absent (`none`) in that branch. -/
structure HttpResponse where
  status : Nat
  error : Option String := none
  instructions : Option String := none
  details : Option String := none
  suggestion : Option String := none
  success : Option Bool := none
  data : Option Json := none

/-- The `POST` route handler (page.tsx lines 191-316): the missing-image
guard, the provider call on the normalized payload, the no-result branch,
the success branch, and the catch-block classification in source order
(API_KEY, then quota / rate limit, then generic). The provider is passed as
a function so that the handler's single call site on the normalized payload
is explicit. -/
def POST (req : ExtractRequest) (provider : String → ProviderOutcome) : HttpResponse :=
  if imageFalsy req.image then
    { status := 400, error := some "No image provided" }
  else
    match provider (normalizeImage ((req.image).getD "") req.mimeType) with
    | .ok none =>
        { status := 500, error := some "Failed to extract data from image" }
    | .ok (some d) =>
        { status := 200, success := some true, data := some d }
    | .err msg =>
        if optIncludes msg "API_KEY" then
          { status := 401
            error := some "Invalid API key. Please check your GOOGLE_GEMINI_API_KEY in .env.local"
            instructions := some "Get a new API key from https://aistudio.google.com/apikey" }
        else if optIncludes msg "quota" || optIncludes msg "rate limit" then
          { status := 429
            error := some "API rate limit exceeded. Please try again later or upgrade your plan."
            details := msg }
        else
          { status := 500
            error := some "Failed to process image with Gemini API"
            details := some (jsOrDefault msg "Unknown error")
            suggestion := some "Please try again or use Basic OCR mode" }

/-- A normalized success response: status 200, `success: true`, a data
payload, and no error field. -/
def isSuccessResponse (r : HttpResponse) : Prop :=
  r.status = 200 ∧ r.success = some true ∧ r.data.isSome = true ∧ r.error = none

/-- A normalized classified-failure response: one of the four failure
statuses, an error message present, and no success flag or data payload. -/
def isClassifiedFailure (r : HttpResponse) : Prop :=
  (r.status = 400 ∨ r.status = 401 ∨ r.status = 429 ∨ r.status = 500) ∧
  r.error.isSome = true ∧ r.success = none ∧ r.data = none

/-- A file selected in the client UI: an abstract identity plus the declared
MIME type that `processFile` checks. -/
structure ClientFile where
  id : Nat
  fileType : String

/-- The client-side session state: the `useState` fields of the `ImageOCR`
component that the claims concern (selected image, extracted text,
structured data, status line, processing flag, error message, API-key
banner flag). -/
structure SessionState where
  image : Option Nat
  text : String
  structuredData : Option ExtractedData
  status : String
  isProcessing : Bool
  error : Option String
  apiKeyMissing : Bool
deriving DecidableEq

/-- `processFile` (ImageOCR source, lines 567-580): reject non-image MIME
types with an error message, otherwise install the new image and clear the
text, structured data, status, error and API-key flag. -/
def processFile (s : SessionState) (f : ClientFile) : SessionState :=
  if jsStarts f.fileType "image/" then
    { s with image := some f.id, text := "", structuredData := none,
             status := "", error := none, apiKeyMissing := false }
  else
    { s with error := some "Please upload a valid image file." }

/-- What the fetch inside `performAIExtraction` resolves to: an HTTP-ok
response carrying the extracted data, a non-ok response carrying the error
body fields the client reads, or a thrown error (network failure). -/
inductive AttemptResult where
  | httpOk (d : ExtractedData) : AttemptResult
  | httpErr (errorMsg : Option String) (instructions : Option String) : AttemptResult
  | thrown (msg : Option String) : AttemptResult

/-- Observable client events: selecting a file, the synchronous head of
`performAIExtraction` (up to the first await), the continuation after the
base64 read resolves, and the continuation after the fetch resolves. An
in-flight attempt contributes its later events after any interleaved
selections. -/
inductive ClientEvent where
  | select (f : ClientFile) : ClientEvent
  | extractStart : ClientEvent
  | extractAnalyzing : ClientEvent
  | extractComplete (r : AttemptResult) : ClientEvent

/-- The state mutations of the tail of `performAIExtraction` (ImageOCR
source, lines 629-652). Faithful to the code, these mutations are applied
unconditionally: the continuation closes over the file it uploaded but
never compares it against the currently selected image. -/
def applyCompletion (s : SessionState) (r : AttemptResult) : SessionState :=
  let s1 :=
    match r with
    | .httpOk d =>
        { s with structuredData := some d, text := jsOrDefault (some d.raw_text) "" }
    | .httpErr errorMsg instructions =>
        if optIncludes errorMsg "API key" then
          { s with apiKeyMissing := true,
                   error := some (errorMsg.getD "" ++ " " ++ jsOrDefault instructions "") }
        else
          { s with error := some (jsOrDefault errorMsg "Failed to extract text") }
    | .thrown msg =>
        { s with error := some ("Failed to connect to AI service. " ++ jsOrDefault msg "") }
  { s1 with isProcessing := false, status := "" }

/-- One client step per event. `extractStart` is the guard and synchronous
prefix of `performAIExtraction` (lines 596-603): a no-op without a selected
image, otherwise it clears the previous result and enters the uploading
status. -/
def step (s : SessionState) : ClientEvent → SessionState
  | .select f => processFile s f
  | .extractStart =>
      match s.image with
      | none => s
      | some _ =>
          { s with isProcessing := true, error := none, text := "",
                   structuredData := none, status := "Uploading to Gemini AI..." }
  | .extractAnalyzing => { s with status := "Analyzing image with AI..." }
  | .extractComplete r => applyCompletion s r

/-- Run a sequence of client events from a state. -/
def runTrace (s : SessionState) (events : List ClientEvent) : SessionState :=
  events.foldl step s

/-- A well-formed model output used to instantiate universally quantified
theorems. -/
def sampleCandidate : Json :=
  .obj [("bill_no", .str "INV-42"), ("amount", .str "245.00"),
        ("purpose", .str "Food"), ("raw_text", .str "total 245.00")]

/-- The validated form of `sampleCandidate`. -/
def sampleData : ExtractedData :=
  { bill_no := "INV-42", amount := "245.00", purpose := .food, raw_text := "total 245.00" }

/-- A candidate that satisfies the schema while carrying empty `bill_no`
and `amount` strings instead of the documented sentinels. -/
def emptySentinelCandidate : Json :=
  .obj [("bill_no", .str ""), ("amount", .str ""),
        ("purpose", .str "Other"), ("raw_text", .str "scan")]

/-- The validated form of `emptySentinelCandidate`. -/
def emptySentinelData : ExtractedData :=
  { bill_no := "", amount := "", purpose := .other, raw_text := "scan" }

/-- First image selected in the race scenario. -/
def firstFile : ClientFile := { id := 1, fileType := "image/png" }

/-- Second image, selected while the first extraction is in flight. -/
def secondFile : ClientFile := { id := 2, fileType := "image/png" }

/-- The eventual outcome of the first (stale) extraction attempt. -/
def firstOutcome : ExtractedData :=
  { bill_no := "A1", amount := "10", purpose := .food, raw_text := "first" }

/-- The initial client session state. -/
def sessionStart : SessionState :=
  { image := none, text := "", structuredData := none, status := "",
    isProcessing := false, error := none, apiKeyMissing := false }

/-- The race trace: select the first image, start its extraction, reach the
analyzing stage, select the second image while the attempt is in flight,
then let the first attempt complete successfully. -/
def raceTrace : List ClientEvent :=
  [.select firstFile, .extractStart, .extractAnalyzing, .select secondFile,
   .extractComplete (.httpOk firstOutcome)]

/-- Acceptance by `parsePurpose` coincides with membership in the seven
enumerated literals. -/
theorem parsePurpose_isSome (s : String) :
    (parsePurpose s).isSome = isPurposeLiteral s := by
  unfold parsePurpose isPurposeLiteral
  cases h1 : s == "Conveyance" <;> cases h2 : s == "Train" <;>
    cases h3 : s == "Bus" <;> cases h4 : s == "Food" <;>
    cases h5 : s == "Hotel" <;> cases h6 : s == "Project Expense" <;>
    cases h7 : s == "Other" <;>
    simp [h1, h2, h3, h4, h5, h6, h7]

/-- A string accepted by `parsePurpose` is recovered exactly by
`purposeString`. -/
theorem parsePurpose_eq_some {s : String} {pu : Purpose}
    (h : parsePurpose s = some pu) : purposeString pu = s := by
  unfold parsePurpose at h
  repeat' split at h
  all_goals first
    | (injection h with h2
       subst h2
       simp_all [purposeString])
    | injection h

/-- Every enum member prints to one of the seven literals. -/
theorem isPurposeLiteral_purposeString (pu : Purpose) :
    isPurposeLiteral (purposeString pu) = true := by
  cases pu <;> rfl

/-- The validator accepts exactly the candidates described by the claim:
four present string-typed fields with an enumerated purpose. -/
theorem isAccepted_eq_specAccepts (candidate : Json) :
    isAccepted candidate = specAccepts candidate := by
  unfold isAccepted validate specAccepts
  cases hb : candidate.getStr "bill_no" with
  | none => simp
  | some b =>
    cases ha : candidate.getStr "amount" with
    | none => simp
    | some a =>
      cases hp : candidate.getStr "purpose" with
      | none => simp
      | some p =>
        cases hpp : parsePurpose p with
        | none =>
            have hlit : isPurposeLiteral p = false := by
              rw [← parsePurpose_isSome, hpp]; rfl
            simp [hpp, hlit]
        | some pu =>
            have hlit : isPurposeLiteral p = true := by
              rw [← parsePurpose_isSome, hpp]; rfl
            cases hr : candidate.getStr "raw_text" with
            | none => simp [hpp, hr, hlit]
            | some r => simp [hpp, hr, hlit]

/-- An accepted output carries exactly the candidate field values: no
coercion and no defaulting happens on acceptance. -/
theorem validate_ok_fields {candidate : Json} {d : ExtractedData}
    (h : validate candidate = .ok d) :
    candidate.getStr "bill_no" = some d.bill_no ∧
    candidate.getStr "amount" = some d.amount ∧
    candidate.getStr "purpose" = some (purposeString d.purpose) ∧
    candidate.getStr "raw_text" = some d.raw_text := by
  unfold validate at h
  cases hb : candidate.getStr "bill_no" with
  | none => simp [hb] at h
  | some b =>
    simp only [hb] at h
    cases ha : candidate.getStr "amount" with
    | none => simp [ha] at h
    | some a =>
      simp only [ha] at h
      cases hp : candidate.getStr "purpose" with
      | none => simp [hp] at h
      | some p =>
        simp only [hp] at h
        cases hpp : parsePurpose p with
        | none => simp [hpp] at h
        | some pu =>
          simp only [hpp] at h
          cases hr : candidate.getStr "raw_text" with
          | none => simp [hr] at h
          | some r =>
            simp only [hr] at h
            injection h with h2
            subst h2
            refine ⟨rfl, rfl, ?_, rfl⟩
            show some p = some (purposeString pu)
            rw [parsePurpose_eq_some hpp]

/-- C1: the schema validator accepts a candidate response exactly when
bill_no, amount, purpose and raw_text are all present and string-typed and
purpose is one of the seven enumerated literals; on acceptance the output
fields equal the candidate fields byte for byte (nothing is coerced or
defaulted), and every rejection is the single MalformedOutput validation
error (the only constructor of ValidationError). -/
theorem c1_schema_validation (candidate : Json) :
    (isAccepted candidate = specAccepts candidate) ∧
    (∀ d, validate candidate = .ok d →
        candidate.getStr "bill_no" = some d.bill_no ∧
        candidate.getStr "amount" = some d.amount ∧
        candidate.getStr "purpose" = some (purposeString d.purpose) ∧
        isPurposeLiteral (purposeString d.purpose) = true ∧
        candidate.getStr "raw_text" = some d.raw_text) :=
  ⟨isAccepted_eq_specAccepts candidate,
   fun _ h =>
     ⟨(validate_ok_fields h).1, (validate_ok_fields h).2.1,
      (validate_ok_fields h).2.2.1, isPurposeLiteral_purposeString _,
      (validate_ok_fields h).2.2.2⟩⟩

/-- Witness for C1 at a concrete well-formed candidate. -/
theorem c1_schema_validation_witness :
    isAccepted sampleCandidate = specAccepts sampleCandidate ∧
    Json.getStr sampleCandidate "bill_no" = some "INV-42" :=
  ⟨(c1_schema_validation sampleCandidate).1,
   ((c1_schema_validation sampleCandidate).2 sampleData rfl).1⟩

/-- C8 counterexample: the validator accepts an output whose bill_no and
amount are empty strings, so acceptance does not guarantee the sentinel
representation claimed for absent values. -/
theorem c8_counterexample :
    validate emptySentinelCandidate = .ok emptySentinelData ∧
    emptySentinelData.bill_no = "" ∧
    emptySentinelData.amount = "" :=
  ⟨rfl, rfl, rfl⟩

/-- C8 amended: every output accepted by the schema validator has amount
and bill_no present and string-typed, equal to the candidate values; the
sentinels N/A and 0 are requested only through the prompt and the field
descriptions, and non-emptiness is not enforced by validation. -/
theorem c8_accepted_fields_present {candidate : Json} {d : ExtractedData}
    (h : validate candidate = .ok d) :
    (candidate.getStr "bill_no").isSome = true ∧
    (candidate.getStr "amount").isSome = true ∧
    candidate.getStr "bill_no" = some d.bill_no ∧
    candidate.getStr "amount" = some d.amount := by
  have hf := validate_ok_fields h
  exact ⟨by rw [hf.1]; rfl, by rw [hf.2.1]; rfl, hf.1, hf.2.1⟩

/-- Witness for the amended C8 at a concrete accepted candidate. -/
theorem c8_accepted_fields_present_witness :
    (Json.getStr emptySentinelCandidate "bill_no").isSome = true ∧
    (Json.getStr emptySentinelCandidate "amount").isSome = true :=
  ⟨(@c8_accepted_fields_present emptySentinelCandidate emptySentinelData rfl).1,
   (@c8_accepted_fields_present emptySentinelCandidate emptySentinelData rfl).2.1⟩

/-- C7: a request body without an image field gets status 400 with body
consisting solely of the error "No image provided", whatever the provider
would have answered — the response is the same constant for every provider,
so no provider call can influence it. -/
theorem c7_missing_image_rejected (mt : Option String)
    (provider : String → ProviderOutcome) :
    POST { image := none, mimeType := mt } provider =
      { status := 400, error := some "No image provided" } := rfl

/-- C10: the empty-string image is treated identically to an omitted image
by the falsiness guard: status 400, body solely the error
"No image provided", independent of the provider. -/
theorem c10_empty_image_like_missing (mt : Option String)
    (provider : String → ProviderOutcome) :
    POST { image := some "", mimeType := mt } provider =
        { status := 400, error := some "No image provided" } ∧
    POST { image := some "", mimeType := mt } provider =
      POST { image := none, mimeType := mt } provider :=
  ⟨rfl, rfl⟩

/-- C3: for every request and every provider outcome (a thrown error with
any message or none, an absent result, or a result object), the handler
resolves to exactly one normalized response, which is either the success
shape or a classified failure shape — it is a total function into
`HttpResponse`, so no fault escapes the boundary. -/
theorem c3_gateway_totality (req : ExtractRequest)
    (provider : String → ProviderOutcome) :
    isSuccessResponse (POST req provider) ∨ isClassifiedFailure (POST req provider) := by
  unfold POST isSuccessResponse isClassifiedFailure
  split
  · exact Or.inr ⟨Or.inl rfl, rfl, rfl, rfl⟩
  · split
    · exact Or.inr ⟨Or.inr (Or.inr (Or.inr rfl)), rfl, rfl, rfl⟩
    · exact Or.inl ⟨rfl, rfl, rfl, rfl⟩
    · split
      · exact Or.inr ⟨Or.inr (Or.inl rfl), rfl, rfl, rfl⟩
      · split
        · exact Or.inr ⟨Or.inr (Or.inr (Or.inl rfl)), rfl, rfl, rfl⟩
        · exact Or.inr ⟨Or.inr (Or.inr (Or.inr rfl)), rfl, rfl, rfl⟩

/-- C2 counterexample: a provider error whose message is exactly "API key"
does mention the phrase the claim names, yet the handler classifies it as a
generic failure: status 500 and no instructions field, not 401. The
credential pattern the code matches is the literal "API_KEY". -/
theorem c2_counterexample :
    jsIncludes "API key" "API key" = true ∧
    jsIncludes "API key" "API_KEY" = false ∧
    (POST { image := some "img", mimeType := none }
        (fun _ => .err (some "API key"))).status = 500 ∧
    (POST { image := some "img", mimeType := none }
        (fun _ => .err (some "API key"))).instructions = none :=
  ⟨rfl, rfl, rfl, rfl⟩

/-- C2 amended: for every provider error whose message contains the literal
"API_KEY" (underscore, upper case — the pattern the handler matches, not
the phrase "API key"), the handler returns status 401 with the error
message and the remediation instructions present; the conclusion holds
whatever else the message contains, so this check takes precedence over the
rate-limit and generic branches. -/
theorem c2_api_key_classification (req : ExtractRequest)
    (provider : String → ProviderOutcome) (msg : String)
    (himg : imageFalsy req.image = false)
    (herr : ∀ payload, provider payload = .err (some msg))
    (hkey : jsIncludes msg "API_KEY" = true) :
    (POST req provider).status = 401 ∧
    (POST req provider).error =
      some "Invalid API key. Please check your GOOGLE_GEMINI_API_KEY in .env.local" ∧
    (POST req provider).instructions =
      some "Get a new API key from https://aistudio.google.com/apikey" := by
  have h := herr (normalizeImage ((req.image).getD "") req.mimeType)
  unfold POST
  simp only [himg, Bool.false_eq_true, if_false, h, optIncludes, hkey, if_true]
  exact ⟨by trivial, by trivial, by trivial⟩

/-- Witness for the amended C2 at a concrete request and provider error. -/
theorem c2_api_key_classification_witness :
    (POST { image := some "a", mimeType := none }
        (fun _ => .err (some "missing API_KEY env"))).status = 401 :=
  (c2_api_key_classification { image := some "a", mimeType := none }
      (fun _ => .err (some "missing API_KEY env")) "missing API_KEY env"
      rfl (fun _ => rfl) rfl).1

/-- C5: a provider error that does not match the credential pattern is
classified by the quota or rate limit patterns: when one of them matches,
status 429 with the error message and the details field carrying the raw
provider message; when neither matches, status 500 with the error message,
a details field (the message, or "Unknown error" when absent or empty) and
the suggestion to fall back to basic OCR mode. -/
theorem c5_rate_limit_and_generic (req : ExtractRequest)
    (provider : String → ProviderOutcome) (m : Option String)
    (himg : imageFalsy req.image = false)
    (herr : ∀ payload, provider payload = .err m)
    (hnokey : optIncludes m "API_KEY" = false) :
    ((optIncludes m "quota" || optIncludes m "rate limit") = true →
        (POST req provider).status = 429 ∧
        (POST req provider).error.isSome = true ∧
        (POST req provider).details = m ∧ m.isSome = true) ∧
    ((optIncludes m "quota" || optIncludes m "rate limit") = false →
        (POST req provider).status = 500 ∧
        (POST req provider).error.isSome = true ∧
        (POST req provider).details = some (jsOrDefault m "Unknown error") ∧
        (POST req provider).suggestion = some "Please try again or use Basic OCR mode") := by
  have h := herr (normalizeImage ((req.image).getD "") req.mimeType)
  constructor
  · intro hq
    unfold POST
    simp only [himg, Bool.false_eq_true, if_false, h, hnokey, hq, if_true]
    refine ⟨by trivial, by trivial, by trivial, ?_⟩
    cases m with
    | none => simp [optIncludes] at hq
    | some s => rfl
  · intro hq
    unfold POST
    simp only [himg, Bool.false_eq_true, if_false, h, hnokey, hq]
    exact ⟨by trivial, by trivial, by trivial, by trivial⟩

/-- Witness for C5 at concrete rate-limited and generic provider errors. -/
theorem c5_rate_limit_and_generic_witness :
    (POST { image := some "a", mimeType := none }
        (fun _ => .err (some "quota exceeded"))).status = 429 ∧
    (POST { image := some "b", mimeType := none }
        (fun _ => .err (some "socket hang up"))).status = 500 :=
  ⟨((c5_rate_limit_and_generic { image := some "a", mimeType := none }
        (fun _ => .err (some "quota exceeded")) (some "quota exceeded")
        rfl (fun _ => rfl) rfl).1 rfl).1,
   ((c5_rate_limit_and_generic { image := some "b", mimeType := none }
        (fun _ => .err (some "socket hang up")) (some "socket hang up")
        rfl (fun _ => rfl) rfl).2 rfl).1⟩

/-- C6 counterexample: when the provider completes with no result object,
the handler returns status 500 whose message is
"Failed to extract data from image", not "no data returned". -/
theorem c6_counterexample :
    (POST { image := some "abc", mimeType := none } (fun _ => .ok none)).status = 500 ∧
    (POST { image := some "abc", mimeType := none } (fun _ => .ok none)).error =
      some "Failed to extract data from image" ∧
    (POST { image := some "abc", mimeType := none } (fun _ => .ok none)).error ≠
      some "no data returned" :=
  ⟨rfl, rfl, by decide⟩

/-- C6 amended: if the provider call completes without throwing but yields
no result object, the handler returns status 500 with body consisting
solely of the error "Failed to extract data from image" (the generic
provider-failure category; the body carries no category field and no
details or suggestion). -/
theorem c6_no_result_response (req : ExtractRequest)
    (provider : String → ProviderOutcome)
    (himg : imageFalsy req.image = false)
    (hnone : ∀ payload, provider payload = .ok none) :
    POST req provider =
      { status := 500, error := some "Failed to extract data from image" } := by
  have h := hnone (normalizeImage ((req.image).getD "") req.mimeType)
  unfold POST
  simp only [himg, Bool.false_eq_true, if_false, h]

/-- Witness for the amended C6 at a concrete request. -/
theorem c6_no_result_response_witness :
    POST { image := some "abc", mimeType := some "image/png" } (fun _ => .ok none) =
      { status := 500, error := some "Failed to extract data from image" } :=
  c6_no_result_response { image := some "abc", mimeType := some "image/png" }
    (fun _ => .ok none) rfl (fun _ => rfl)

/-- C4 counterexample: the image "x,y" is not a self-describing data URI,
yet the handler passes it to the model unchanged instead of synthesizing
"data:image/jpeg;base64,x,y" — the branch tests comma containment, not
data-URI shape. -/
theorem c4_counterexample :
    isSelfDescribingDataURI "x,y" = false ∧
    normalizeImage "x,y" none = "x,y" ∧
    normalizeImage "x,y" none ≠ "data:image/jpeg;base64,x,y" :=
  ⟨rfl, rfl, by decide⟩

/-- C4 amended: for a non-empty image string, the payload is the image
unchanged exactly when the image contains a comma — in particular every
self-describing data URI is passed through unchanged — and a comma-free
image is transported as data:mimeType;base64,image, with the MIME type
defaulting to image/jpeg when absent. -/
theorem c4_payload_normalization (image : String) (mimeType : Option String)
    (_hne : image ≠ "") :
    (isSelfDescribingDataURI image = true → normalizeImage image mimeType = image) ∧
    (jsIncludes image "," = true → normalizeImage image mimeType = image) ∧
    (jsIncludes image "," = false → mimeType = none →
        normalizeImage image mimeType = "data:image/jpeg;base64," ++ image) ∧
    (∀ mt, jsIncludes image "," = false → mimeType = some mt → mt ≠ "" →
        normalizeImage image mimeType = "data:" ++ mt ++ ";base64," ++ image) := by
  refine ⟨?_, ?_, ?_, ?_⟩
  · intro h
    have hc : jsIncludes image "," = true := by
      unfold isSelfDescribingDataURI at h
      exact (Bool.and_eq_true _ _ |>.mp h).2
    simp [normalizeImage, hc]
  · intro h
    simp [normalizeImage, h]
  · intro h hm
    subst hm
    simp [normalizeImage, h, jsOrDefault]
  · intro mt h hm hmne
    subst hm
    simp [normalizeImage, h, jsOrDefault, hmne]

/-- Witness for the amended C4: a data URI passes through unchanged and a
bare base64 string gets the default prefix. -/
theorem c4_payload_normalization_witness :
    normalizeImage "data:image/png;base64,QUJD" none = "data:image/png;base64,QUJD" ∧
    normalizeImage "QUJD" none = "data:image/jpeg;base64,QUJD" :=
  ⟨(c4_payload_normalization "data:image/png;base64,QUJD" none (by decide)).1 rfl,
   (c4_payload_normalization "QUJD" none (by decide)).2.2.1 rfl rfl⟩

/-- C9: evaluating the client step semantics on the race trace — select the
first image, start its extraction, reach analyzing, select a second image
while the attempt is in flight, then let the stale attempt complete. After
the second selection the structured data is cleared and the session points
at the second image, yet the stale completion overwrites the session with
the first attempt result: the code has no invalidation of in-flight
attempts, so the first outcome, not only the second, is reflected in
session state. -/
theorem c9_stale_completion_mutates :
    (runTrace sessionStart (List.take 4 raceTrace)).image = some secondFile.id ∧
    (runTrace sessionStart (List.take 4 raceTrace)).structuredData = none ∧
    (runTrace sessionStart raceTrace).image = some secondFile.id ∧
    (runTrace sessionStart raceTrace).structuredData = some firstOutcome ∧
    (runTrace sessionStart raceTrace).text = firstOutcome.raw_text :=
  ⟨rfl, rfl, rfl, rfl, rfl⟩
